import Mathlib

/-!
Verification of the Bruno AI agent-gateway layer.

This file gives a shallow embedding of the gateway code
(`server/agents/v2/a2a_gateway.py`, the `RateLimiter` of
`server/agents/v2/instacart_integration_agent.py`, and the orchestration
entry points of `server/src/agents/v2/bruno_master_agent.py`) and proves
properties of the embedded definitions.

Modelling conventions:
- `datetime.now()` values are rationals (seconds); every operation that reads
  the clock takes the current time as an explicit argument.
- Remote HTTP calls are replaced by explicit outcome parameters
  (`DispatchOutcome`, `ProbeOutcome`): an httpx call either produces a
  response with a status code / latency, or raises (timeouts included).
- Python dictionaries keyed by agent name become functions
  `String → Option _`; in-place mutation becomes explicit state passing.
- `raise HTTPException(...)` becomes `Except.error` of an `HTTPException`
  value; a normal `return` becomes `Except.ok`.
-/

namespace BrunoGateway

/-- The three circuit-breaker states of `CircuitBreaker` in `a2a_gateway.py`
(the Python code stores them as the strings "CLOSED", "OPEN", "HALF_OPEN"). -/
inductive CBState
  | CLOSED
  | OPEN
  | HALF_OPEN
deriving DecidableEq, Repr

/-- State of `CircuitBreaker.__init__` (a2a_gateway.py lines 467-474):
per-agent name, configured `failure_threshold` (default 5) and `timeout`
(default 60 seconds), a consecutive-failure counter, the optional time of the
last recorded failure (`None` initially), and the current state. -/
structure CircuitBreaker where
  agent_name : String
  failure_threshold : Nat
  timeout : ℚ
  failure_count : Nat
  last_failure_time : Option ℚ
  state : CBState
deriving DecidableEq, Repr

/-- `CircuitBreaker(agent_name)` with the default threshold 5 and timeout 60:
failure count 0, no last failure, state CLOSED. -/
def CircuitBreaker.init (agent_name : String) : CircuitBreaker :=
  { agent_name := agent_name
    failure_threshold := 5
    timeout := 60
    failure_count := 0
    last_failure_time := none
    state := .CLOSED }

/-- `CircuitBreaker.can_execute` (a2a_gateway.py lines 476-489).  The Python
method reads `datetime.now()`; here the clock is the explicit `now` argument.
Note that the method MUTATES the breaker in the OPEN branch (it assigns
`self.state = "HALF_OPEN"` before returning True), so the embedding returns
the boolean answer together with the post-call breaker. -/
def can_execute (cb : CircuitBreaker) (now : ℚ) : Bool × CircuitBreaker :=
  match cb.state with
  | .CLOSED => (true, cb)
  | .OPEN =>
    match cb.last_failure_time with
    | some t =>
      if now - t > cb.timeout then (true, { cb with state := .HALF_OPEN })
      else (false, cb)
    | none => (false, cb)
  | .HALF_OPEN => (true, cb)

/-- `CircuitBreaker.record_success` (a2a_gateway.py lines 491-494): resets the
failure count to 0 and sets the state to CLOSED, unconditionally. -/
def record_success (cb : CircuitBreaker) : CircuitBreaker :=
  { cb with failure_count := 0, state := .CLOSED }

/-- `CircuitBreaker.record_failure` (a2a_gateway.py lines 496-503): increments
the failure count, stamps `last_failure_time` with the current time, and moves
to OPEN once the count reaches the threshold. -/
def record_failure (cb : CircuitBreaker) (now : ℚ) : CircuitBreaker :=
  let fc := cb.failure_count + 1
  { cb with
    failure_count := fc
    last_failure_time := some now
    state := if fc ≥ cb.failure_threshold then .OPEN else cb.state }

/-- Agent status values written by the gateway: "healthy", "unhealthy",
"unreachable". -/
inductive AgentStatus
  | healthy
  | unhealthy
  | unreachable
deriving DecidableEq, Repr

/-- The per-agent record stored in `self.registered_agents[agent_name]`
(a2a_gateway.py lines 111-119): the registration payload plus runtime status
and counters. -/
structure AgentDescriptor where
  name : String
  url : String
  health_endpoint : String
  task_endpoint : String
  registered_at : ℚ
  last_health_check : ℚ
  status : AgentStatus
  request_count : Nat
  error_count : Nat
  avg_response_time : ℚ
deriving DecidableEq, Repr

/-- The per-agent entry of `self.agent_metrics` initialised in
`_record_success_metrics` / `_record_failure_metrics`
(a2a_gateway.py lines 277-284, 307-314). -/
structure AgentMetrics where
  total_requests : Nat
  successful_requests : Nat
  failed_requests : Nat
  avg_response_time : ℚ
  last_request : Option ℚ
deriving DecidableEq, Repr

/-- The zero-initialised metrics dict created on first touch of an agent. -/
def AgentMetrics.init : AgentMetrics :=
  { total_requests := 0
    successful_requests := 0
    failed_requests := 0
    avg_response_time := 0
    last_request := none }

/-- `_record_success_metrics` (a2a_gateway.py lines 275-299), metrics part:
create the entry if absent, bump total and successful counts, and update the
rolling average: the first request sets the average to its response time,
later ones use `(avg * (total - 1) + response_time) / total`. -/
def record_success_metrics (m : Option AgentMetrics) (response_time : ℚ)
    (now : ℚ) : AgentMetrics :=
  let metrics := m.getD AgentMetrics.init
  let total := metrics.total_requests + 1
  { total_requests := total
    successful_requests := metrics.successful_requests + 1
    failed_requests := metrics.failed_requests
    avg_response_time :=
      if total = 1 then response_time
      else (metrics.avg_response_time * ((total : ℚ) - 1) + response_time) /
        (total : ℚ)
    last_request := some now }

/-- `_record_failure_metrics` (a2a_gateway.py lines 305-319): bump total and
failed counts and stamp `last_request`; the rolling average is NOT touched. -/
def record_failure_metrics (m : Option AgentMetrics) (now : ℚ) : AgentMetrics :=
  let metrics := m.getD AgentMetrics.init
  { total_requests := metrics.total_requests + 1
    successful_requests := metrics.successful_requests
    failed_requests := metrics.failed_requests + 1
    avg_response_time := metrics.avg_response_time
    last_request := some now }

/-- The mutable maps of `BrunoA2AGatewayV2.__init__` that the routed-task and
registration paths touch: `registered_agents`, `circuit_breakers`,
`agent_metrics`, each keyed by agent name. -/
structure GatewayState where
  registered_agents : String → Option AgentDescriptor
  circuit_breakers : String → Option CircuitBreaker
  agent_metrics : String → Option AgentMetrics

/-- The empty gateway: all three dicts start `{}`. -/
def GatewayState.empty : GatewayState :=
  { registered_agents := fun _ => none
    circuit_breakers := fun _ => none
    agent_metrics := fun _ => none }

/-- A `raise HTTPException(status_code=...)` value. -/
structure HTTPException where
  status_code : Nat
deriving DecidableEq, Repr

/-- Outcome of the remote `client.post` inside `create_task`: either the call
returns a response (whose handling takes the measured latency), or it raises
an exception (connection error, timeout, bad JSON — any `Exception`). -/
inductive DispatchOutcome
  | respond (latency : ℚ)
  | raiseExn
deriving DecidableEq, Repr

/-- Outcome of a health-probe `client.get`: a response with a status code, or
a network error (any raised `Exception`). -/
inductive ProbeOutcome
  | status (code : Nat)
  | netError
deriving DecidableEq, Repr

/-- `_get_healthy_agent` (a2a_gateway.py lines 266-273): the registered entry
under the name, if present and currently marked healthy. -/
def get_healthy_agent (s : GatewayState) (agent_name : String) :
    Option AgentDescriptor :=
  match s.registered_agents agent_name with
  | some a => if a.status = .healthy then some a else none
  | none => none

/-- Replace (or insert) the breaker stored under one agent name. -/
def set_breaker (s : GatewayState) (agent_name : String) (cb : CircuitBreaker) :
    GatewayState :=
  { s with circuit_breakers := fun n =>
      if n = agent_name then some cb else s.circuit_breakers n }

/-- Replace (or insert) the metrics entry stored under one agent name. -/
def set_metrics (s : GatewayState) (agent_name : String) (m : AgentMetrics) :
    GatewayState :=
  { s with agent_metrics := fun n =>
      if n = agent_name then some m else s.agent_metrics n }

/-- Apply an update to the registered descriptor under one agent name. -/
def update_agent (s : GatewayState) (agent_name : String)
    (f : AgentDescriptor → AgentDescriptor) : GatewayState :=
  { s with registered_agents := fun n =>
      if n = agent_name then (s.registered_agents n).map f
      else s.registered_agents n }

/-- Result of one run of the `create_task` handler: the value returned or the
`HTTPException` raised, the gateway state afterwards, and whether the remote
`client.post` transport call was attempted at all. -/
structure CreateTaskRun where
  result : Except HTTPException Unit
  post : GatewayState
  transport_attempted : Bool

/-- The dispatch part of `create_task` (a2a_gateway.py lines 165-197): the
remote call is attempted; on a response, success metrics are recorded (and
copied onto the descriptor) and `record_success` runs on the breaker if one
exists, returning the response body; on an exception, failure metrics are
recorded, `record_failure` runs on the breaker if one exists, and
`HTTPException(500)` is raised. -/
def run_dispatch (s : GatewayState) (agent_name : String)
    (cbOpt : Option CircuitBreaker) (d : DispatchOutcome) (now : ℚ) :
    CreateTaskRun :=
  match d with
  | .respond latency =>
    let m := record_success_metrics (s.agent_metrics agent_name) latency now
    let s1 := set_metrics s agent_name m
    let s2 := update_agent s1 agent_name (fun a =>
      { a with request_count := m.total_requests
               avg_response_time := m.avg_response_time })
    let s3 := match cbOpt with
      | some cb => set_breaker s2 agent_name (record_success cb)
      | none => s2
    { result := .ok (), post := s3, transport_attempted := true }
  | .raiseExn =>
    let m := record_failure_metrics (s.agent_metrics agent_name) now
    let s1 := set_metrics s agent_name m
    let s2 := update_agent s1 agent_name (fun a =>
      { a with request_count := m.total_requests
               error_count := m.failed_requests })
    let s3 := match cbOpt with
      | some cb => set_breaker s2 agent_name (record_failure cb now)
      | none => s2
    { result := .error ⟨500⟩, post := s3, transport_attempted := true }

/-- The `create_task` handler (a2a_gateway.py lines 145-197).  It raises
`HTTPException(404)` when no healthy instance of the agent exists, raises
`HTTPException(503)` when the agent's circuit breaker denies execution (note:
the `can_execute` call may itself move the breaker OPEN → HALF_OPEN, which is
kept in the state either way), and otherwise attempts the remote dispatch. -/
def create_task (s : GatewayState) (agent_name : String) (d : DispatchOutcome)
    (now : ℚ) : CreateTaskRun :=
  match get_healthy_agent s agent_name with
  | none => { result := .error ⟨404⟩, post := s, transport_attempted := false }
  | some _ =>
    match s.circuit_breakers agent_name with
    | some cb =>
      let p := can_execute cb now
      let s1 := set_breaker s agent_name p.2
      if p.1 then run_dispatch s1 agent_name (some p.2) d now
      else { result := .error ⟨503⟩, post := s1, transport_attempted := false }
    | none => run_dispatch s agent_name none d now

/-- `check_agent_health_internal` (a2a_gateway.py lines 379-402), descriptor
part: a response with status code exactly 200 marks the agent healthy, any
other status code marks it unhealthy (both stamp `last_health_check`), and a
raised exception marks it unreachable (without touching the stamp). -/
def check_agent_health_internal (a : AgentDescriptor) (probe : ProbeOutcome)
    (now : ℚ) : AgentDescriptor :=
  match probe with
  | .status code =>
    if code = 200 then { a with status := .healthy, last_health_check := now }
    else { a with status := .unhealthy, last_health_check := now }
  | .netError => { a with status := .unreachable }

/-- The registration payload `AgentRegistration` (a2a_gateway.py lines 19-25),
restricted to the fields the gateway stores and uses. -/
structure AgentRegistration where
  name : String
  url : String
  health_endpoint : String
  task_endpoint : String
deriving DecidableEq, Repr

/-- The descriptor stored by `register_agent` on acceptance (a2a_gateway.py
lines 111-119): the payload plus registration/health-check stamps, status
healthy, and zeroed counters. -/
def fresh_descriptor (info : AgentRegistration) (now : ℚ) : AgentDescriptor :=
  { name := info.name
    url := info.url
    health_endpoint := info.health_endpoint
    task_endpoint := info.task_endpoint
    registered_at := now
    last_health_check := now
    status := .healthy
    request_count := 0
    error_count := 0
    avg_response_time := 0 }

/-- The `register_agent` handler (a2a_gateway.py lines 86-134).  The
registration-time probe must return status 200, otherwise `HTTPException(400)`
is raised (a non-200 status raises inside the `try` and is re-raised by the
`except` clause as 400 as well).  On acceptance the descriptor entry under the
agent's name is assigned (replacing any previous entry) and a brand-new
`CircuitBreaker(agent_name)` is installed under the same key; `agent_metrics`
is not touched. -/
def register_agent (s : GatewayState) (info : AgentRegistration)
    (probe : ProbeOutcome) (now : ℚ) : Except HTTPException GatewayState :=
  match probe with
  | .status code =>
    if code = 200 then
      .ok { s with
        registered_agents := fun n =>
          if n = info.name then some (fresh_descriptor info now)
          else s.registered_agents n
        circuit_breakers := fun n =>
          if n = info.name then some (CircuitBreaker.init info.name)
          else s.circuit_breakers n }
    else .error ⟨400⟩
  | .netError => .error ⟨400⟩

/-- `RateLimiter` of `instacart_integration_agent.py` (lines 486-513): the
configured hourly limit and the list of recorded request timestamps. -/
structure RateLimiter where
  requests_per_hour : Nat
  requests : List ℚ
deriving DecidableEq, Repr

/-- `RateLimiter.acquire` (instacart_integration_agent.py lines 494-513).
`now` is the clock value read on entry.  The method prunes timestamps at
least one hour old, and when the pruned list has reached the limit it sleeps
until the oldest recorded timestamp leaves the window; it then appends `now`
— the PRE-sleep clock value — to the list.  The embedding returns the updated
limiter together with the time at which the call returns (admission time):
`now` plus the slept duration, if any. -/
def acquire (rl : RateLimiter) (now : ℚ) : RateLimiter × ℚ :=
  let pruned := rl.requests.filter (fun t => now - t < 3600)
  if pruned.length ≥ rl.requests_per_hour then
    let oldest := pruned.foldl min (pruned.headD now)
    let wait := oldest + 3600 - now
    let slept := if wait > 0 then wait else 0
    ({ rl with requests := pruned ++ [now] }, now + slept)
  else
    ({ rl with requests := pruned ++ [now] }, now)

/-- Value type for modelling the Python dicts the orchestrator passes around:
numbers, strings, or null. -/
inductive JVal
  | num (q : ℚ)
  | str (s : String)
  | null
deriving DecidableEq, Repr

/-- A Python dict with string keys, as an association list. -/
abbrev JDict := List (String × JVal)

/-- Python's `d.get(key, default)` where a numeric value is expected: the
stored number if the key maps to one, else the default. -/
def jget (d : JDict) (key : String) (default : ℚ) : ℚ :=
  match d.lookup key with
  | some (.num q) => q
  | _ => default

/-- `_calculate_optimization_score` (bruno_master_agent.py lines 541-547):
reads the three sub-scores with per-field defaults 0.8, 0.85, 0.9 and always
divides the sum by 3. -/
def calculate_optimization_score (budget_analysis recipe_result
    shopping_result : JDict) : ℚ :=
  let budget_score := jget budget_analysis "optimization_score" (8 / 10)
  let recipe_score := jget recipe_result "nutrition_score" (85 / 100)
  let shopping_score := jget shopping_result "cost_efficiency" (9 / 10)
  (budget_score + recipe_score + shopping_score) / 3

/-- The post-`asyncio.gather(..., return_exceptions=True)` handling of one
parallel branch (bruno_master_agent.py lines 151-153): a raised exception is
replaced by the dict `{"error": str(e)}`; a normal result is kept. -/
def processBranch (r : Except String JDict) : JDict :=
  match r with
  | .ok d => d
  | .error e => [("error", JVal.str e)]

/-- The dict returned by `orchestrate_meal_planning`
(bruno_master_agent.py lines 210-223), restricted to the fields the
aggregation claims are about.  `success` is the literal `True`; there is no
degraded marker among the returned keys. -/
structure OrchestrationResult where
  success : Bool
  budget_analysis : JDict
  nutrition_analysis : JDict
  meal_plan : JDict
  shopping_experience : JDict
  optimization_score : ℚ
deriving DecidableEq, Repr

/-- `orchestrate_meal_planning` (bruno_master_agent.py lines 110-223), with
the downstream agent calls abstracted as outcome parameters: the two parallel
branches (budget analysis, nutrition analysis) either return a dict or raise,
and the sequential recipe and shopping steps return dicts.  The exceptions of
the parallel branches are absorbed into `{"error": ...}` dicts, both dicts
are embedded into the response, `success` is always `True`, and the
optimization score is computed from the budget, recipe and shopping dicts. -/
def orchestrate_meal_planning (budgetBranch nutritionBranch :
    Except String JDict) (recipe_result shopping_result : JDict) :
    OrchestrationResult :=
  let budget_analysis := processBranch budgetBranch
  let nutrition_analysis := processBranch nutritionBranch
  { success := true
    budget_analysis := budget_analysis
    nutrition_analysis := nutrition_analysis
    meal_plan := recipe_result
    shopping_experience := shopping_result
    optimization_score :=
      calculate_optimization_score budget_analysis recipe_result
        shopping_result }

/-- A per-agent breaker together with the number of routed tasks currently in
flight for that agent (tasks whose `can_execute` check already passed but
whose success/failure has not been recorded yet). -/
structure RouterConfig where
  cb : CircuitBreaker
  inflight : Nat
deriving DecidableEq, Repr

/-- One scheduler-visible event of the `create_task` flow against one agent's
breaker (a2a_gateway.py lines 157-191).  `grant`/`deny` are the
`can_execute()` check (which may itself rewrite the breaker, OPEN →
HALF_OPEN); a granted task is in flight across the awaited remote call until
its `success` or `failure` event records the verdict.  Because the remote
call is awaited, events of concurrent `create_task` coroutines for the same
agent interleave freely between a task's grant and its verdict. -/
inductive RouterStep : RouterConfig → RouterConfig → Prop
  | grant (c : RouterConfig) (now : ℚ) (cb1 : CircuitBreaker)
      (h : can_execute c.cb now = (true, cb1)) :
      RouterStep c ⟨cb1, c.inflight + 1⟩
  | deny (c : RouterConfig) (now : ℚ) (cb1 : CircuitBreaker)
      (h : can_execute c.cb now = (false, cb1)) :
      RouterStep c ⟨cb1, c.inflight⟩
  | success (c : RouterConfig) (n : Nat) (h : c.inflight = n + 1) :
      RouterStep c ⟨record_success c.cb, n⟩
  | failure (c : RouterConfig) (n : Nat) (now : ℚ) (h : c.inflight = n + 1) :
      RouterStep c ⟨record_failure c.cb now, n⟩

/-- Configurations reachable from a freshly created breaker with no task in
flight, under freely interleaved `create_task` coroutines. -/
def Reachable (agent_name : String) (c : RouterConfig) : Prop :=
  Relation.ReflTransGen RouterStep ⟨CircuitBreaker.init agent_name, 0⟩ c

/-- The same events restricted to sequential operation: a new task is granted
only when no other task is in flight (at most one outstanding routed task per
agent at any time). -/
inductive SeqStep : RouterConfig → RouterConfig → Prop
  | grant (c : RouterConfig) (now : ℚ) (cb1 : CircuitBreaker)
      (hfree : c.inflight = 0) (h : can_execute c.cb now = (true, cb1)) :
      SeqStep c ⟨cb1, 1⟩
  | deny (c : RouterConfig) (now : ℚ) (cb1 : CircuitBreaker)
      (h : can_execute c.cb now = (false, cb1)) :
      SeqStep c ⟨cb1, c.inflight⟩
  | success (c : RouterConfig) (h : c.inflight = 1) :
      SeqStep c ⟨record_success c.cb, 0⟩
  | failure (c : RouterConfig) (now : ℚ) (h : c.inflight = 1) :
      SeqStep c ⟨record_failure c.cb now, 0⟩

/-- Configurations reachable from a fresh breaker under sequential (at most
one in-flight task) operation. -/
def SeqReachable (agent_name : String) (c : RouterConfig) : Prop :=
  Relation.ReflTransGen SeqStep ⟨CircuitBreaker.init agent_name, 0⟩ c

/-- Five consecutive `record_failure` calls at the given times. -/
def fail5 (cb : CircuitBreaker) (t1 t2 t3 t4 t5 : ℚ) : CircuitBreaker :=
  record_failure (record_failure (record_failure (record_failure
    (record_failure cb t1) t2) t3) t4) t5

/-- A shared concrete breaker: a fresh breaker for agent "agent_b"
(threshold 5, timeout 60) after five `record_failure` calls at time 0. -/
def cbOpenFive : CircuitBreaker :=
  fail5 (CircuitBreaker.init "agent_b") 0 0 0 0 0

theorem can_execute_true_state (cb cb1 : CircuitBreaker) (now : ℚ)
    (h : can_execute cb now = (true, cb1)) :
    (cb.state = .CLOSED ∧ cb1 = cb) ∨
    (cb.state = .OPEN ∧ cb1 = { cb with state := .HALF_OPEN }) ∨
    (cb.state = .HALF_OPEN ∧ cb1 = cb) := by
  obtain ⟨nm, ft, tm, fc, lf, st⟩ := cb
  cases st with
  | CLOSED =>
    simp only [can_execute, Prod.mk.injEq, true_and] at h
    exact Or.inl ⟨rfl, h.symm⟩
  | OPEN =>
    cases lf with
    | none => simp [can_execute] at h
    | some t =>
      simp only [can_execute] at h
      by_cases hc : now - t > tm
      · rw [if_pos hc] at h
        simp only [Prod.mk.injEq, true_and] at h
        exact Or.inr (Or.inl ⟨rfl, h.symm⟩)
      · rw [if_neg hc] at h
        simp at h
  | HALF_OPEN =>
    simp only [can_execute, Prod.mk.injEq, true_and] at h
    exact Or.inr (Or.inr ⟨rfl, h.symm⟩)

theorem can_execute_false_state (cb cb1 : CircuitBreaker) (now : ℚ)
    (h : can_execute cb now = (false, cb1)) :
    cb1 = cb ∧ cb.state = .OPEN := by
  obtain ⟨nm, ft, tm, fc, lf, st⟩ := cb
  cases st with
  | CLOSED => simp [can_execute] at h
  | OPEN =>
    cases lf with
    | none =>
      simp only [can_execute, Prod.mk.injEq, true_and] at h
      exact ⟨h.symm, rfl⟩
    | some t =>
      simp only [can_execute] at h
      by_cases hc : now - t > tm
      · rw [if_pos hc] at h
        simp at h
      · rw [if_neg hc] at h
        simp only [Prod.mk.injEq, true_and] at h
        exact ⟨h.symm, rfl⟩
  | HALF_OPEN => simp [can_execute] at h

theorem record_failure_state_of_ge (cb : CircuitBreaker) (now : ℚ)
    (h : cb.failure_count + 1 ≥ cb.failure_threshold) :
    (record_failure cb now).state = .OPEN := by
  simp [record_failure, h]

theorem record_failure_state_open (cb : CircuitBreaker) (now : ℚ)
    (h : cb.state = .OPEN) : (record_failure cb now).state = .OPEN := by
  simp only [record_failure]
  split <;> simp [h]

/-- Claim C3 counterexample: starting from a fresh breaker for "agent_b"
driven OPEN by five failures at time 0, a `can_execute` at time 100 (past the
60-second reset timeout) moves the breaker to HALF_OPEN and grants the trial;
a second `can_execute` in HALF_OPEN, with no intervening verdict, grants
AGAIN — the claimed "at most one grant per HALF_OPEN episode" is false. -/
theorem halfOpen_second_canExecute_grants_again :
    (can_execute cbOpenFive 100).1 = true ∧
    (can_execute cbOpenFive 100).2.state = CBState.HALF_OPEN ∧
    (can_execute (can_execute cbOpenFive 100).2 100).1 = true ∧
    (can_execute (can_execute (can_execute cbOpenFive 100).2 100).2 100).1 =
      true := by
  norm_num [cbOpenFive, fail5, record_failure, CircuitBreaker.init,
    can_execute]

/-- Claim C3 (amended): while the breaker is HALF_OPEN, EVERY `can_execute`
call returns true and leaves the breaker unchanged — the code places no
limit on the number of trial requests before a verdict. -/
theorem halfOpen_canExecute_always_true (cb : CircuitBreaker) (now : ℚ)
    (h : cb.state = .HALF_OPEN) : can_execute cb now = (true, cb) := by
  unfold can_execute
  rw [h]

/-- Claim C3 witness: the amended theorem applied to the concrete HALF_OPEN
breaker obtained from `cbOpenFive` after its reset timeout elapsed. -/
theorem halfOpen_canExecute_always_true_witness :
    can_execute (can_execute cbOpenFive 100).2 200 =
      (true, (can_execute cbOpenFive 100).2) :=
  halfOpen_canExecute_always_true (can_execute cbOpenFive 100).2 200
    (by norm_num [cbOpenFive, fail5, record_failure, CircuitBreaker.init,
      can_execute])

/-- Claim C4 counterexample: `can_execute` is NOT side-effect-free.  On the
breaker `cbOpenFive` (state OPEN, last failure at 0) queried at time 100, the
call rewrites the stored state to HALF_OPEN. -/
theorem canExecute_mutates_open_breaker :
    cbOpenFive.state = CBState.OPEN ∧
    (can_execute cbOpenFive 100).2.state = CBState.HALF_OPEN ∧
    (can_execute cbOpenFive 100).2 ≠ cbOpenFive := by
  refine ⟨?_, ?_, ?_⟩ <;>
    norm_num [cbOpenFive, fail5, record_failure, CircuitBreaker.init,
      can_execute]
  decide

/-- Claim C4 (amended): `can_execute` never changes the failure count or the
last-failure timestamp, and it leaves the breaker entirely unchanged EXCEPT
in the one case of an OPEN breaker whose reset timeout has elapsed, where it
rewrites the state to HALF_OPEN (returning true); `record_success` and
`record_failure` are the only other mutators of breaker state. -/
theorem canExecute_mutation_characterization (cb : CircuitBreaker) (now : ℚ) :
    (can_execute cb now).2.failure_count = cb.failure_count ∧
    (can_execute cb now).2.last_failure_time = cb.last_failure_time ∧
    ((can_execute cb now).2 = cb ∨
      (cb.state = .OPEN ∧
        (can_execute cb now).2 = { cb with state := .HALF_OPEN } ∧
        (can_execute cb now).1 = true)) := by
  obtain ⟨nm, ft, tm, fc, lf, st⟩ := cb
  cases st with
  | CLOSED => simp [can_execute]
  | OPEN =>
    cases lf with
    | none => simp [can_execute]
    | some t =>
      by_cases hc : now - t > tm
      · simp [can_execute, hc]
      · simp [can_execute, hc]
  | HALF_OPEN => simp [can_execute]

/-- Claim C2 counterexample: with the interleaving that the awaited remote
call in `create_task` permits, a direct OPEN → CLOSED transition IS
reachable. Six tasks for "agent_b" pass the `can_execute` check while the
breaker is CLOSED; five of them record failures (driving the breaker OPEN
with failure count 5); the remaining in-flight task then completes
successfully and `record_success` rewrites the OPEN breaker straight to
CLOSED. -/
theorem open_to_closed_reachable :
    Reachable "agent_b" ⟨cbOpenFive, 1⟩ ∧
    RouterStep ⟨cbOpenFive, 1⟩ ⟨record_success cbOpenFive, 0⟩ ∧
    cbOpenFive.state = CBState.OPEN ∧
    (record_success cbOpenFive).state = CBState.CLOSED := by
  refine ⟨?_, RouterStep.success _ 0 rfl, by decide, rfl⟩
  have h0 : Reachable "agent_b" ⟨CircuitBreaker.init "agent_b", 0⟩ :=
    Relation.ReflTransGen.refl
  have h1 := h0.tail (RouterStep.grant _ 0 _ rfl)
  have h2 := h1.tail (RouterStep.grant _ 0 _ rfl)
  have h3 := h2.tail (RouterStep.grant _ 0 _ rfl)
  have h4 := h3.tail (RouterStep.grant _ 0 _ rfl)
  have h5 := h4.tail (RouterStep.grant _ 0 _ rfl)
  have h6 := h5.tail (RouterStep.grant _ 0 _ rfl)
  have h7 := h6.tail (RouterStep.failure _ 5 0 rfl)
  have h8 := h7.tail (RouterStep.failure _ 4 0 rfl)
  have h9 := h8.tail (RouterStep.failure _ 3 0 rfl)
  have h10 := h9.tail (RouterStep.failure _ 2 0 rfl)
  exact h10.tail (RouterStep.failure _ 1 0 rfl)

theorem seq_inflight_invariant (agent_name : String) (c : RouterConfig)
    (h : SeqReachable agent_name c) :
    c.inflight ≤ 1 ∧ (c.inflight = 1 → c.cb.state ≠ .OPEN) := by
  induction h with
  | refl => exact ⟨by simp, fun _ => by simp [CircuitBreaker.init]⟩
  | tail hseq hstep ih =>
    cases hstep with
    | grant now cb1 hfree hexec =>
      refine ⟨le_refl 1, fun _ => ?_⟩
      rcases can_execute_true_state _ _ _ hexec with
        ⟨hs, rfl⟩ | ⟨hs, rfl⟩ | ⟨hs, rfl⟩ <;> simp [hs]
    | deny now cb1 hexec =>
      obtain ⟨rfl, hopen⟩ := can_execute_false_state _ _ _ hexec
      exact ⟨ih.1, fun h1 => absurd hopen (ih.2 h1)⟩
    | success h1 => exact ⟨by simp, by simp⟩
    | failure now h1 => exact ⟨by simp, by simp⟩

/-- Claim C2 (amended): `record_success` unconditionally rewrites the breaker
to CLOSED, so a direct OPEN → CLOSED transition is reachable when several
routed tasks for the same agent are in flight concurrently
(`open_to_closed_reachable`); under sequential operation — at most one
in-flight routed task per agent, which is the discipline the spec's
state-machine reading assumes — no reachable step ever moves the breaker
directly from OPEN to CLOSED. -/
theorem seq_no_direct_open_to_closed (agent_name : String)
    (c c' : RouterConfig) (hr : SeqReachable agent_name c)
    (hs : SeqStep c c') :
    ¬(c.cb.state = .OPEN ∧ c'.cb.state = .CLOSED) := by
  rintro ⟨hopen, hclosed⟩
  cases hs with
  | grant now cb1 hfree hexec =>
    rcases can_execute_true_state _ _ _ hexec with
      ⟨hs1, rfl⟩ | ⟨hs1, rfl⟩ | ⟨hs1, rfl⟩
    · rw [hs1] at hopen; exact absurd hopen (by decide)
    · simp at hclosed
    · rw [hs1] at hopen; exact absurd hopen (by decide)
  | deny now cb1 hexec =>
    obtain ⟨rfl, _⟩ := can_execute_false_state _ _ _ hexec
    rw [hopen] at hclosed
    exact absurd hclosed (by decide)
  | success h1 =>
    exact (seq_inflight_invariant agent_name c hr).2 h1 hopen
  | failure now h1 =>
    rw [record_failure_state_open c.cb now hopen] at hclosed
    exact absurd hclosed (by decide)

/-- Claim C2 witness: the amended theorem applied to the initial sequential
configuration of a fresh breaker and its first granted task. -/
theorem seq_no_direct_open_to_closed_witness :
    ¬((⟨CircuitBreaker.init "agent_b", 0⟩ : RouterConfig).cb.state =
        CBState.OPEN ∧
      (⟨CircuitBreaker.init "agent_b", 1⟩ : RouterConfig).cb.state =
        CBState.CLOSED) :=
  seq_no_direct_open_to_closed "agent_b" ⟨CircuitBreaker.init "agent_b", 0⟩
    ⟨CircuitBreaker.init "agent_b", 1⟩ Relation.ReflTransGen.refl
    (SeqStep.grant _ 0 _ rfl rfl)

theorem fail5_state (cb : CircuitBreaker) (h5 : cb.failure_threshold = 5)
    (t1 t2 t3 t4 t5 : ℚ) : (fail5 cb t1 t2 t3 t4 t5).state = .OPEN := by
  apply record_failure_state_of_ge
  have hc : (record_failure (record_failure (record_failure
      (record_failure cb t1) t2) t3) t4).failure_count =
      cb.failure_count + 4 := rfl
  have hth : (record_failure (record_failure (record_failure
      (record_failure cb t1) t2) t3) t4).failure_threshold =
      cb.failure_threshold := rfl
  rw [hc, hth, h5]
  omega

theorem fail5_last (cb : CircuitBreaker) (t1 t2 t3 t4 t5 : ℚ) :
    (fail5 cb t1 t2 t3 t4 t5).last_failure_time = some t5 := rfl

theorem fail5_timeout (cb : CircuitBreaker) (t1 t2 t3 t4 t5 : ℚ) :
    (fail5 cb t1 t2 t3 t4 t5).timeout = cb.timeout := rfl

theorem can_execute_fail5_false (cb : CircuitBreaker)
    (h5 : cb.failure_threshold = 5) (t1 t2 t3 t4 t5 now : ℚ)
    (hnow : now - t5 ≤ cb.timeout) :
    can_execute (fail5 cb t1 t2 t3 t4 t5) now =
      (false, fail5 cb t1 t2 t3 t4 t5) := by
  have hng : ¬(now - t5 > cb.timeout) := not_lt.mpr hnow
  simp [can_execute, fail5_state cb h5 t1 t2 t3 t4 t5, fail5_last,
    fail5_timeout, hng]

/-- Claim C5: a CLOSED breaker with threshold 5, after five consecutive
`record_failure` calls, is OPEN; a `can_execute` before the reset timeout has
elapsed returns false; and a `create_task` routed to a healthy agent guarded
by that breaker raises `HTTPException(503)` (the circuit-open failure) with
no transport call attempted. -/
theorem five_failures_open_circuit (cb : CircuitBreaker)
    (hclosed : cb.state = .CLOSED) (h5 : cb.failure_threshold = 5)
    (t1 t2 t3 t4 t5 now : ℚ) (hnow : now - t5 ≤ cb.timeout)
    (s : GatewayState) (agent_name : String) (a : AgentDescriptor)
    (hreg : s.registered_agents agent_name = some a)
    (hhealthy : a.status = .healthy)
    (hcb : s.circuit_breakers agent_name = some (fail5 cb t1 t2 t3 t4 t5))
    (d : DispatchOutcome) :
    (fail5 cb t1 t2 t3 t4 t5).state = .OPEN ∧
    (can_execute (fail5 cb t1 t2 t3 t4 t5) now).1 = false ∧
    (create_task s agent_name d now).result = .error ⟨503⟩ ∧
    (create_task s agent_name d now).transport_attempted = false := by
  have hce := can_execute_fail5_false cb h5 t1 t2 t3 t4 t5 now hnow
  have hga : get_healthy_agent s agent_name = some a := by
    simp [get_healthy_agent, hreg, hhealthy]
  refine ⟨fail5_state cb h5 t1 t2 t3 t4 t5, by rw [hce], ?_, ?_⟩ <;>
    simp [create_task, hga, hcb, hce]

/-- A healthy registered descriptor for "agent_b", as stored at registration
time. -/
def descHealthy : AgentDescriptor :=
  fresh_descriptor ⟨"agent_b", "http://agent-b:3001", "/health", "/task"⟩ 0

/-- A gateway holding "agent_b" as a healthy registered agent whose circuit
breaker has just recorded five consecutive failures at time 0. -/
def sWithOpenBreaker : GatewayState :=
  { registered_agents := fun n => if n = "agent_b" then some descHealthy
      else none
    circuit_breakers := fun n => if n = "agent_b" then some cbOpenFive
      else none
    agent_metrics := fun _ => none }

/-- Claim C5 witness: the theorem applied at the concrete gateway
`sWithOpenBreaker`, querying at time 10 (well before the 60-second reset). -/
theorem five_failures_open_circuit_witness :
    cbOpenFive.state = CBState.OPEN ∧
    (can_execute cbOpenFive 10).1 = false ∧
    (create_task sWithOpenBreaker "agent_b" (.respond 1) 10).result =
      Except.error ⟨503⟩ ∧
    (create_task sWithOpenBreaker "agent_b" (.respond 1)
      10).transport_attempted = false :=
  five_failures_open_circuit (CircuitBreaker.init "agent_b") rfl rfl
    0 0 0 0 0 10 (by norm_num [CircuitBreaker.init]) sWithOpenBreaker
    "agent_b" descHealthy (by simp [sWithOpenBreaker]) rfl
    (by simp [sWithOpenBreaker, cbOpenFive]) (.respond 1)

/-- Claim C1 counterexample: dispatching a task for an agent with no healthy
registered instance does NOT produce a structured failure value — the
`create_task` handler raises `HTTPException(404)` to its caller.  (An
`Except.error` here is a raised exception; no `TaskResult` value exists
anywhere on the failure paths.) -/
theorem create_task_missing_agent_raises :
    (create_task GatewayState.empty "budget_analyst_agent" .raiseExn 0).result
      = Except.error ⟨404⟩ := rfl

/-- Claim C1 (amended): `create_task` returns a value only on the success
path; each of the three failure outcomes is a raised `HTTPException` — 404
when no healthy instance exists (no transport attempted), 503 when the
circuit breaker denies execution (no transport attempted), and 500 when the
dispatched call raises; exceptions, not structured results, cross the handler
boundary on every failure. -/
theorem create_task_outcome_characterization (s : GatewayState)
    (agent_name : String) (d : DispatchOutcome) (now : ℚ) :
    ((create_task s agent_name d now).result = .error ⟨404⟩ ∧
      (create_task s agent_name d now).transport_attempted = false) ∨
    ((create_task s agent_name d now).result = .error ⟨503⟩ ∧
      (create_task s agent_name d now).transport_attempted = false) ∨
    ((create_task s agent_name d now).result = .error ⟨500⟩ ∧
      (create_task s agent_name d now).transport_attempted = true) ∨
    ((create_task s agent_name d now).result = .ok () ∧
      (create_task s agent_name d now).transport_attempted = true) := by
  cases hga : get_healthy_agent s agent_name with
  | none => simp [create_task, hga]
  | some a =>
    cases hcb : s.circuit_breakers agent_name with
    | none => cases d <;> simp [create_task, hga, hcb, run_dispatch]
    | some cb =>
      rcases hce : can_execute cb now with ⟨b, cb1⟩
      cases b <;> cases d <;>
        simp [create_task, hga, hcb, hce, run_dispatch]

/-- Claim C9 counterexample: a health probe answered with status 204 — a
2xx-equivalent success response — marks the agent UNHEALTHY, because the code
compares the status code to exactly 200. -/
theorem health_probe_204_marks_unhealthy :
    (check_agent_health_internal descHealthy (.status 204) 5).status =
      AgentStatus.unhealthy ∧
    AgentStatus.unhealthy ≠ AgentStatus.healthy := by
  exact ⟨by simp [check_agent_health_internal], by decide⟩

/-- Claim C9 (amended): a probe response with status code exactly 200 sets
the agent healthy; ANY other status code — other 2xx codes included — sets it
unhealthy; a network error (raised exception) sets it unreachable. -/
theorem health_probe_characterization (a : AgentDescriptor) (now : ℚ)
    (code : Nat) :
    ((check_agent_health_internal a (.status code) now).status =
      AgentStatus.healthy ↔ code = 200) ∧
    (code ≠ 200 →
      (check_agent_health_internal a (.status code) now).status =
        AgentStatus.unhealthy) ∧
    (check_agent_health_internal a .netError now).status =
      AgentStatus.unreachable := by
  by_cases h : code = 200 <;> simp [check_agent_health_internal, h]

/-- Claim C9 witness: the amended characterization applied at status 201. -/
theorem health_probe_characterization_witness :
    (check_agent_health_internal descHealthy (.status 201) 5).status =
      AgentStatus.unhealthy :=
  (health_probe_characterization descHealthy 5 201).2.1 (by decide)

/-- Claim C7 counterexample: one failed call followed by one successful call
of latency 10.  The single observed latency is 10, so the arithmetic mean of
the observed latencies is 10, but the recorded rolling average is 5: the
incremental update divides by the TOTAL request count, which includes the
failed call. -/
theorem avg_latency_failure_then_success :
    (record_success_metrics (some (record_failure_metrics none 0)) 10
      1).avg_response_time = 5 ∧
    (5 : ℚ) ≠ 10 := by
  constructor
  · norm_num [record_success_metrics, record_failure_metrics,
      AgentMetrics.init]
  · norm_num

/-- Fold the per-call success bookkeeping of `_record_success_metrics` over a
list of observed latencies, starting from an absent metrics entry (the
timestamp argument is irrelevant to the counters and average). -/
def run_success_metrics (latencies : List ℚ) : Option AgentMetrics :=
  latencies.foldl (fun m x => some (record_success_metrics m x 0)) none

theorem foldl_some_metrics (xs : List ℚ) (m : AgentMetrics) :
    xs.foldl (fun acc x => some (record_success_metrics acc x 0)) (some m) =
      some (xs.foldl (fun acc x => record_success_metrics (some acc) x 0)
        m) := by
  induction xs generalizing m with
  | nil => rfl
  | cons x rest ih => simpa using ih (record_success_metrics (some m) x 0)

theorem foldl_success_metrics_inv (xs : List ℚ) (m : AgentMetrics)
    (hm : m.total_requests ≠ 0) :
    (xs.foldl (fun acc x => record_success_metrics (some acc) x 0)
        m).total_requests = m.total_requests + xs.length ∧
    (xs.foldl (fun acc x => record_success_metrics (some acc) x 0)
        m).avg_response_time *
        (((m.total_requests + xs.length : Nat)) : ℚ) =
      m.avg_response_time * ((m.total_requests : Nat) : ℚ) + xs.sum := by
  induction xs generalizing m with
  | nil => simp
  | cons x rest ih =>
    have hne : m.total_requests + 1 ≠ 1 := by omega
    have h1t : (record_success_metrics (some m) x 0).total_requests =
        m.total_requests + 1 := rfl
    have h1a : (record_success_metrics (some m) x 0).avg_response_time =
        (m.avg_response_time * (((m.total_requests + 1 : Nat) : ℚ) - 1) + x) /
          ((m.total_requests + 1 : Nat) : ℚ) := by
      simp only [record_success_metrics, Option.getD_some]
      rw [if_neg hne]
    obtain ⟨iht, iha⟩ := ih (record_success_metrics (some m) x 0)
      (by rw [h1t]; omega)
    rw [h1t] at iht iha
    constructor
    · simp only [List.foldl_cons, List.length_cons]
      rw [iht]
      omega
    · simp only [List.foldl_cons, List.length_cons, List.sum_cons]
      have hlen : m.total_requests + (rest.length + 1) =
          m.total_requests + 1 + rest.length := by omega
      rw [hlen, iha, h1a]
      have hcast : ((m.total_requests + 1 : Nat) : ℚ) ≠ 0 := by
        exact_mod_cast Nat.succ_ne_zero m.total_requests
      field_simp
      ring

/-- Claim C7 (amended): when every one of the k routed calls succeeds, the
recorded rolling average equals the arithmetic mean of the k observed
latencies.  (When failures interleave, the update divides by the total call
count including failures, and the equality fails —
`avg_latency_failure_then_success`.) -/
theorem avg_equals_mean_when_all_succeed (xs : List ℚ) (h : xs ≠ []) :
    ∃ m, run_success_metrics xs = some m ∧
      m.total_requests = xs.length ∧
      m.avg_response_time = xs.sum / (xs.length : ℚ) := by
  obtain ⟨x, rest, rfl⟩ := List.exists_cons_of_ne_nil h
  have hm0t : (record_success_metrics none x 0).total_requests = 1 := rfl
  have hm0a : (record_success_metrics none x 0).avg_response_time = x := rfl
  have hrun : run_success_metrics (x :: rest) =
      some (rest.foldl (fun acc y => record_success_metrics (some acc) y 0)
        (record_success_metrics none x 0)) := by
    simp only [run_success_metrics, List.foldl_cons]
    exact foldl_some_metrics rest (record_success_metrics none x 0)
  obtain ⟨iht, iha⟩ := foldl_success_metrics_inv rest
    (record_success_metrics none x 0) (by rw [hm0t]; omega)
  rw [hm0t] at iht
  rw [hm0t, hm0a] at iha
  refine ⟨_, hrun, ?_, ?_⟩
  · rw [iht]; simp [Nat.add_comm]
  · have hlen : ((1 + rest.length : Nat) : ℚ) = ((x :: rest).length : ℚ) := by
      push_cast [List.length_cons]
      ring
    have hlen0 : ((x :: rest).length : ℚ) ≠ 0 := by
      exact_mod_cast (List.length_pos.mpr (List.cons_ne_nil x rest)).ne'
    rw [hlen] at iha
    rw [eq_div_iff hlen0, iha]
    push_cast [List.sum_cons]
    ring

/-- Claim C7 witness: the amended theorem applied to the two-latency run
[3, 5]. -/
theorem avg_equals_mean_when_all_succeed_witness :
    ∃ m, run_success_metrics [3, 5] = some m ∧
      m.total_requests = ([3, 5] : List ℚ).length ∧
      m.avg_response_time =
        ([3, 5] : List ℚ).sum / ((([3, 5] : List ℚ).length : Nat) : ℚ) :=
  avg_equals_mean_when_all_succeed [3, 5] (by simp)

/-- Claim C8 counterexample: with the budget branch failing and the two
available sub-scores both 6/10, the mean of the available sub-scores is 6/10,
but the code substitutes the default 8/10 for the missing budget score and
divides by 3, yielding 2/3; `success` is still reported as true and no
degraded marker exists among the response fields. -/
theorem degraded_plan_score_substitutes_default :
    (orchestrate_meal_planning (.error "budget analyst crashed")
      (.ok [("calories", JVal.num 2000)])
      [("nutrition_score", JVal.num (6 / 10))]
      [("cost_efficiency", JVal.num (6 / 10))]).optimization_score = 2 / 3 ∧
    (2 / 3 : ℚ) ≠ (6 / 10 + 6 / 10) / 2 ∧
    (orchestrate_meal_planning (.error "budget analyst crashed")
      (.ok [("calories", JVal.num 2000)])
      [("nutrition_score", JVal.num (6 / 10))]
      [("cost_efficiency", JVal.num (6 / 10))]).success = true := by
  refine ⟨?_, by norm_num, rfl⟩
  have hb1 : ("optimization_score" == "error") = false := by decide
  norm_num [orchestrate_meal_planning, processBranch,
    calculate_optimization_score, jget, List.lookup, hb1]

/-- Claim C8 (amended): when exactly one of the two parallel branches (the
budget branch) fails, the orchestrator does proceed and embeds the surviving
branch's data, but the response still carries `success = true` with no
degraded flag, and the aggregate score is NOT the mean of the available
sub-scores: the missing branch's score is substituted by its per-field
default (0.8 for budget, 0.85 for recipe, 0.9 for shopping) and the sum is
always divided by 3. -/
theorem one_failed_branch_keeps_survivor_and_defaults (e : String)
    (nutrition recipe shopping : JDict) :
    (orchestrate_meal_planning (.error e) (.ok nutrition) recipe
      shopping).success = true ∧
    (orchestrate_meal_planning (.error e) (.ok nutrition) recipe
      shopping).budget_analysis = [("error", JVal.str e)] ∧
    (orchestrate_meal_planning (.error e) (.ok nutrition) recipe
      shopping).nutrition_analysis = nutrition ∧
    (orchestrate_meal_planning (.error e) (.ok nutrition) recipe
      shopping).meal_plan = recipe ∧
    (orchestrate_meal_planning (.error e) (.ok nutrition) recipe
      shopping).optimization_score =
      (8 / 10 + jget recipe "nutrition_score" (85 / 100) +
        jget shopping "cost_efficiency" (9 / 10)) / 3 := by
  refine ⟨rfl, rfl, rfl, rfl, ?_⟩
  have hb1 : ("optimization_score" == "error") = false := by decide
  norm_num [orchestrate_meal_planning, processBranch,
    calculate_optimization_score, jget, List.lookup, hb1]

/-- The rate-limiter run exhibiting the stale-timestamp bug: limit 2 per
hour, calls entering at times 0, 1, 2, 3601, 3602. -/
def rlStart : RateLimiter := ⟨2, []⟩

def rlStep1 : RateLimiter × ℚ := acquire rlStart 0

def rlStep2 : RateLimiter × ℚ := acquire rlStep1.1 1

def rlStep3 : RateLimiter × ℚ := acquire rlStep2.1 2

def rlStep4 : RateLimiter × ℚ := acquire rlStep3.1 3601

def rlStep5 : RateLimiter × ℚ := acquire rlStep4.1 3602

/-- Claim C6 bug exhibit: with limit 2 per 3600-second window, the third
caller (entering at time 2) sleeps until time 3600 but records its pre-sleep
timestamp 2, which falls out of the window almost immediately; the fourth and
fifth callers are then admitted with no wait at times 3601 and 3602.  The
three admissions at times 3600, 3601, 3602 all lie inside one trailing
3600-second window — more than the configured limit of 2. -/
theorem rate_limiter_overadmits_in_window :
    rlStep1.2 = 0 ∧ rlStep2.2 = 1 ∧ rlStep3.2 = 3600 ∧
    rlStep4.2 = 3601 ∧ rlStep5.2 = 3602 ∧
    ((3602 : ℚ) - rlStep3.2 < 3600 ∧ (3602 : ℚ) - rlStep4.2 < 3600 ∧
      (3602 : ℚ) - rlStep5.2 < 3600) ∧
    rlStart.requests_per_hour = 2 := by
  have h1 : rlStep1 = (⟨2, [0]⟩, 0) := by
    norm_num [rlStep1, rlStart, acquire]
  have h2 : rlStep2 = (⟨2, [0, 1]⟩, 1) := by
    norm_num [rlStep2, h1, acquire, List.filter]
  have h3 : rlStep3 = (⟨2, [0, 1, 2]⟩, 3600) := by
    norm_num [rlStep3, h2, acquire, List.filter, min_def]
  have h4 : rlStep4 = (⟨2, [2, 3601]⟩, 3601) := by
    norm_num [rlStep4, h3, acquire, List.filter]
  have h5 : rlStep5 = (⟨2, [3601, 3602]⟩, 3602) := by
    norm_num [rlStep5, h4, acquire, List.filter]
  norm_num [h1, h2, h3, h4, h5, rlStart]

/-- Claim C10: registering under any name with a passing (status-200)
registration probe — in particular a name already registered — succeeds and
stores a brand-new descriptor (status healthy, request and error counters 0,
zero average latency) and a brand-new `CircuitBreaker` (CLOSED, failure count
0, no last failure) under that name, discarding whatever descriptor and
breaker were stored before; entries under other names are untouched, and the
registry stays a map keyed by name (one entry per name by construction). -/
theorem reregistration_replaces_descriptor_and_breaker (s : GatewayState)
    (info : AgentRegistration) (now : ℚ) :
    ∃ s', register_agent s info (.status 200) now = .ok s' ∧
      s'.registered_agents info.name = some (fresh_descriptor info now) ∧
      (fresh_descriptor info now).status = .healthy ∧
      (fresh_descriptor info now).request_count = 0 ∧
      (fresh_descriptor info now).error_count = 0 ∧
      (fresh_descriptor info now).avg_response_time = 0 ∧
      s'.circuit_breakers info.name = some (CircuitBreaker.init info.name) ∧
      (CircuitBreaker.init info.name).state = .CLOSED ∧
      (CircuitBreaker.init info.name).failure_count = 0 ∧
      (CircuitBreaker.init info.name).last_failure_time = none ∧
      (∀ n, n ≠ info.name → s'.registered_agents n = s.registered_agents n ∧
        s'.circuit_breakers n = s.circuit_breakers n) ∧
      s'.agent_metrics = s.agent_metrics := by
  refine ⟨{ s with
      registered_agents := fun n =>
        if n = info.name then some (fresh_descriptor info now)
        else s.registered_agents n
      circuit_breakers := fun n =>
        if n = info.name then some (CircuitBreaker.init info.name)
        else s.circuit_breakers n },
    by simp [register_agent], by simp, rfl, rfl, rfl, rfl, by simp, rfl, rfl,
    rfl, fun n hn => ⟨if_neg hn, if_neg hn⟩, rfl⟩

/-- The registration payload for "agent_b". -/
def infoB : AgentRegistration :=
  ⟨"agent_b", "http://agent-b:3001", "/health", "/task"⟩

/-- Claim C10 witness: the theorem applied to the concrete gateway
`sWithOpenBreaker`, whose "agent_b" entry holds an OPEN breaker with failure
count 5 — re-registration replaces it by a fresh CLOSED breaker. -/
theorem reregistration_replaces_descriptor_and_breaker_witness :
    ∃ s', register_agent sWithOpenBreaker infoB (.status 200) 7 = .ok s' ∧
      s'.registered_agents infoB.name = some (fresh_descriptor infoB 7) ∧
      (fresh_descriptor infoB 7).status = .healthy ∧
      (fresh_descriptor infoB 7).request_count = 0 ∧
      (fresh_descriptor infoB 7).error_count = 0 ∧
      (fresh_descriptor infoB 7).avg_response_time = 0 ∧
      s'.circuit_breakers infoB.name =
        some (CircuitBreaker.init infoB.name) ∧
      (CircuitBreaker.init infoB.name).state = .CLOSED ∧
      (CircuitBreaker.init infoB.name).failure_count = 0 ∧
      (CircuitBreaker.init infoB.name).last_failure_time = none ∧
      (∀ n, n ≠ infoB.name →
        s'.registered_agents n = sWithOpenBreaker.registered_agents n ∧
        s'.circuit_breakers n = sWithOpenBreaker.circuit_breakers n) ∧
      s'.agent_metrics = sWithOpenBreaker.agent_metrics :=
  reregistration_replaces_descriptor_and_breaker sWithOpenBreaker infoB 7

end BrunoGateway
